import Mathlib

/-!
Verification development for the SafeHer emergency-alert backend.

The development shallowly embeds the server core: the drizzle data model
(`src/drizzle`), the db access layer (`db.ts`), the notification service
(`notificationService.ts`), the tracking registry (`trackingService.ts`)
and the tRPC routers (`src/server/routers.ts`).

Modelling conventions:
- The database is a pure `Store` value threaded explicitly; each db helper
  mirrors its TypeScript counterpart, including the `getDb()` null check,
  which is modelled by the `dbAvailable` flag (every helper degrades to
  `none` / `[]` / `false` without touching the store when the flag is off).
- Machine timestamps (`Date`) are modelled as `Int` milliseconds; the
  current time is passed in explicitly where the source calls `new Date()`.
- Coordinates are modelled as `Int`; the `.toString()` round-trip through
  the decimal columns is the identity in this model.
- JavaScript truthiness checks on possibly-empty / nullable string fields
  (`contact.phone`, `contact.email`, `blockedUntil`) are modelled with
  `Option String` / `Option Int`, `none` meaning falsy.
- `nanoid()` draws are modelled by explicit id parameters (an id supply
  `Nat → String` in the fan-out loop).
- Thrown exceptions are modelled with `Except AppError`; external send
  calls (Twilio / email API placeholders) are abstracted into a
  `NotifyEnv` of functions that may return a response or throw.
- `createdAt` columns that no verified property inspects are omitted from
  the row structures.
-/

/-- Status column of `sosEvents`: enum('active','resolved','cancelled','expired'). -/
inductive SosStatus where
  | active
  | resolved
  | cancelled
  | expired
deriving DecidableEq

/-- Trigger type column of `sosEvents`: enum('manual','voice','offline'). -/
inductive TriggerType where
  | manual
  | voice
  | offline
deriving DecidableEq

/-- Channel of a notification attempt: enum('sms','email'). -/
inductive NotifType where
  | sms
  | email
deriving DecidableEq

/-- Status column of `notifications`: enum('pending','sent','failed','delivered'). -/
inductive NotifStatus where
  | pending
  | sent
  | failed
  | delivered
deriving DecidableEq

/-- Errors surfaced by the server: TRPCError codes plus generic thrown `Error`s. -/
inductive AppError where
  | tooManyRequests
  | internalServerError
  | notFound
  | exn (msg : String)
deriving DecidableEq

/-- Row of the `devices` table (auto-increment id and audit timestamps omitted). -/
structure Device where
  deviceId : String
  name : String
  phone : String
  email : Option String
  isActive : Bool
  lastLocationLat : Option Int
  lastLocationLng : Option Int
  lastLocationTimestamp : Option Int
deriving DecidableEq

/-- Row of the `emergencyContacts` table. `phone` is `Option String` to model
the JavaScript truthiness check `if (contact.phone)` on a possibly-empty string. -/
structure EmergencyContact where
  id : Int
  deviceId : String
  name : String
  phone : Option String
  email : Option String
  priority : Int
  isActive : Bool
deriving DecidableEq

/-- Row of the `sosEvents` table. -/
structure SosEvent where
  eventId : String
  deviceId : String
  status : SosStatus
  triggerType : TriggerType
  initialLat : Int
  initialLng : Int
  notificationsSent : Nat
  trackingStartedAt : Option Int
  resolvedAt : Option Int
deriving DecidableEq

/-- Row of the `locationHistory` table (`createdAt` omitted; rows are kept in
insertion order). -/
structure LocationHistory where
  eventId : String
  deviceId : String
  latitude : Int
  longitude : Int
  accuracy : Option Int
deriving DecidableEq

/-- Row of the `notifications` table. -/
structure Notification where
  notificationId : String
  eventId : String
  contactId : Int
  type : NotifType
  recipient : String
  status : NotifStatus
  externalId : Option String
  errorMessage : Option String
  sentAt : Option Int
deriving DecidableEq

/-- Row of the `sosRateLimit` table. -/
structure SosRateLimit where
  deviceId : String
  sosCount : Nat
  windowStart : Int
  isBlocked : Bool
  blockedUntil : Option Int
deriving DecidableEq

/-- In-memory tracking session from `trackingService.ts`. -/
structure TrackingSession where
  eventId : String
  deviceId : String
  subscribers : List String
  startedAt : Int
deriving DecidableEq

/-- The persistent backing store. `dbAvailable` models whether `getDb()`
returns a live connection (`null` when `DATABASE_URL` is absent or the
connection failed); every db helper checks it first, exactly as the source
checks `if (!db)`. -/
structure Store where
  dbAvailable : Bool
  devices : List Device
  contacts : List EmergencyContact
  sosEvents : List SosEvent
  locationHistory : List LocationHistory
  notifications : List Notification
  rateLimits : List SosRateLimit
deriving DecidableEq

/-- Partial update passed to `db.updateDevice` (`Partial<Device>`); `none`
means the field is absent from the update object. -/
structure DeviceUpdates where
  name : Option String
  phone : Option String
  email : Option String
  lastLocationLat : Option Int
  lastLocationLng : Option Int
  lastLocationTimestamp : Option Int
deriving DecidableEq

/-- Partial update passed to `db.updateSosEvent`. -/
structure SosEventUpdates where
  status : Option SosStatus
  resolvedAt : Option Int
  notificationsSent : Option Nat
deriving DecidableEq

/-- Partial update passed to `db.updateNotification`. -/
structure NotificationUpdates where
  status : Option NotifStatus
  externalId : Option String
  errorMessage : Option String
  sentAt : Option Int
deriving DecidableEq

/-- Apply a `Partial<Device>` update object to a row, drizzle `set` semantics. -/
def applyDeviceUpdates (u : DeviceUpdates) (d : Device) : Device :=
  { d with
    name := u.name.getD d.name
    phone := u.phone.getD d.phone
    email := match u.email with | some e => some e | none => d.email
    lastLocationLat := match u.lastLocationLat with | some v => some v | none => d.lastLocationLat
    lastLocationLng := match u.lastLocationLng with | some v => some v | none => d.lastLocationLng
    lastLocationTimestamp := match u.lastLocationTimestamp with | some v => some v | none => d.lastLocationTimestamp }

/-- Apply a `Partial<SosEvent>` update object to a row. -/
def applySosEventUpdates (u : SosEventUpdates) (e : SosEvent) : SosEvent :=
  { e with
    status := u.status.getD e.status
    resolvedAt := match u.resolvedAt with | some v => some v | none => e.resolvedAt
    notificationsSent := u.notificationsSent.getD e.notificationsSent }

/-- Apply a `Partial<Notification>` update object to a row. -/
def applyNotificationUpdates (u : NotificationUpdates) (n : Notification) : Notification :=
  { n with
    status := u.status.getD n.status
    externalId := match u.externalId with | some v => some v | none => n.externalId
    errorMessage := match u.errorMessage with | some v => some v | none => n.errorMessage
    sentAt := match u.sentAt with | some v => some v | none => n.sentAt }

/-- `db.getDeviceByDeviceId`: select the first row with the given deviceId. -/
def getDeviceByDeviceId (deviceId : String) (s : Store) : Option Device :=
  if s.dbAvailable then s.devices.find? (fun d => d.deviceId == deviceId) else none

/-- `db.createDevice`: insert the row, then read it back by deviceId. -/
def createDevice (d : Device) (s : Store) : Option Device × Store :=
  if s.dbAvailable then
    let s1 : Store := { s with devices := s.devices ++ [d] }
    (getDeviceByDeviceId d.deviceId s1, s1)
  else (none, s)

/-- `db.updateDevice`: set the updated fields on every row with the given
deviceId, then read the row back. -/
def updateDevice (deviceId : String) (u : DeviceUpdates) (s : Store) : Option Device × Store :=
  if s.dbAvailable then
    let s1 : Store := { s with devices :=
      (s.devices.map (fun d => if d.deviceId == deviceId then applyDeviceUpdates u d else d)) }
    (getDeviceByDeviceId deviceId s1, s1)
  else (none, s)

/-- Insertion into a list sorted by ascending priority, used to model the
`orderBy(asc(emergencyContacts.priority))` clause. -/
def orderedInsert (c : EmergencyContact) : List EmergencyContact → List EmergencyContact
  | [] => [c]
  | d :: rest => if c.priority ≤ d.priority then c :: d :: rest else d :: orderedInsert c rest

/-- Stable model of the SQL ordering of the contact list by ascending priority. -/
def sortByPriority : List EmergencyContact → List EmergencyContact
  | [] => []
  | c :: rest => orderedInsert c (sortByPriority rest)

/-- `db.getEmergencyContacts`: contacts of the device ordered by ascending priority. -/
def getEmergencyContacts (deviceId : String) (s : Store) : List EmergencyContact :=
  if s.dbAvailable then sortByPriority (s.contacts.filter (fun c => c.deviceId == deviceId))
  else []

/-- `db.deleteEmergencyContact`: returns false only when the db is unavailable;
the delete itself reports success whether or not a row matched. -/
def deleteEmergencyContact (id : Int) (s : Store) : Bool × Store :=
  if s.dbAvailable then
    (true, { s with contacts := s.contacts.filter (fun c => c.id != id) })
  else (false, s)

/-- `db.getSosEventByEventId`. -/
def getSosEventByEventId (eventId : String) (s : Store) : Option SosEvent :=
  if s.dbAvailable then s.sosEvents.find? (fun e => e.eventId == eventId) else none

/-- `db.createSosEvent`: insert, then read back by eventId. -/
def createSosEvent (e : SosEvent) (s : Store) : Option SosEvent × Store :=
  if s.dbAvailable then
    let s1 : Store := { s with sosEvents := s.sosEvents ++ [e] }
    (getSosEventByEventId e.eventId s1, s1)
  else (none, s)

/-- `db.updateSosEvent`: set the updated fields on every row with the given
eventId, then read the row back. -/
def updateSosEvent (eventId : String) (u : SosEventUpdates) (s : Store) : Option SosEvent × Store :=
  if s.dbAvailable then
    let s1 : Store := { s with sosEvents :=
      (s.sosEvents.map (fun e => if e.eventId == eventId then applySosEventUpdates u e else e)) }
    (getSosEventByEventId eventId s1, s1)
  else (none, s)

/-- `db.addLocationHistory`: insert the row; the source returns the insert
object itself (`location as LocationHistory`), so the result is `some` whenever
the db is available. -/
def addLocationHistory (l : LocationHistory) (s : Store) : Option LocationHistory × Store :=
  if s.dbAvailable then
    (some l, { s with locationHistory := s.locationHistory ++ [l] })
  else (none, s)

/-- `db.createNotification`: insert, then read back by notificationId. -/
def createNotification (n : Notification) (s : Store) : Option Notification × Store :=
  if s.dbAvailable then
    let s1 : Store := { s with notifications := s.notifications ++ [n] }
    (s1.notifications.find? (fun m => m.notificationId == n.notificationId), s1)
  else (none, s)

/-- `db.updateNotification`: set the updated fields on every row with the
given notificationId, then read the row back. -/
def updateNotification (nid : String) (u : NotificationUpdates) (s : Store) : Option Notification × Store :=
  if s.dbAvailable then
    let s1 : Store := { s with notifications :=
      (s.notifications.map (fun n => if n.notificationId == nid then applyNotificationUpdates u n else n)) }
    (s1.notifications.find? (fun n => n.notificationId == nid), s1)
  else (none, s)

/-- `db.getSosRateLimit`. -/
def getSosRateLimit (deviceId : String) (s : Store) : Option SosRateLimit :=
  if s.dbAvailable then s.rateLimits.find? (fun r => r.deviceId == deviceId) else none

/-- Response shape of the external send helpers (`sendTwilioSms`,
`sendEmailViaApi`): `{ success, messageId?, error? }`. -/
structure SendResponse where
  success : Bool
  messageId : Option String
  error : Option String
deriving DecidableEq

/-- Result returned per notification attempt (`NotificationResult`). -/
structure NotificationResult where
  success : Bool
  notificationId : String
  type : NotifType
  recipient : String
  error : Option String
deriving DecidableEq

/-- Location record returned by `updateLocation` (`TrackedLocation`;
the `timestamp` field is omitted, see the header). -/
structure TrackedLocation where
  eventId : String
  latitude : Int
  longitude : Int
  accuracy : Option Int
deriving DecidableEq

/-- Environment abstracting the external messaging placeholders and the
clock used for `sentAt`. A call either returns a `SendResponse` or throws. -/
structure NotifyEnv where
  now : Int
  sendTwilioSms : String → String → Except AppError SendResponse
  sendEmailViaApi : String → String → String → Except AppError SendResponse

/-- Message text of the thrown error, as read by
`error instanceof Error ? error.message : "Unknown error"`. -/
def errText : AppError → String
  | .tooManyRequests => "SOS requests are rate limited"
  | .internalServerError => "INTERNAL_SERVER_ERROR"
  | .notFound => "NOT_FOUND"
  | .exn m => m

/-- SMS body built in `sendSmsAlert`. -/
def smsMessage (deviceName locationUrl : String) : String :=
  "EMERGENCY ALERT from " ++ deviceName ++ ": I need help! View my location: " ++ locationUrl

/-- Email subject built in `sendEmailAlert`. -/
def emailSubject (deviceName : String) : String :=
  "EMERGENCY ALERT: " ++ deviceName ++ " needs help"

/-- Email body built in `sendEmailAlert` (whitespace normalised). -/
def emailBody (deviceName locationUrl : String) : String :=
  "EMERGENCY ALERT " ++ deviceName ++ " has triggered an emergency alert and needs help. Location: " ++ locationUrl

/-- `sendSmsAlert`: create a pending sms notification row, call Twilio,
update the row to sent/failed. The catch block marks the row failed and
rethrows, so a thrown error escapes with the row marked failed. -/
def sendSmsAlert (env : NotifyEnv) (eventId nid : String) (c : EmergencyContact)
    (deviceName locationUrl : String) (s : Store) : Except AppError NotificationResult × Store :=
  match createNotification ⟨nid, eventId, c.id, .sms, c.phone.getD "", .pending, none, none, none⟩ s with
  | (none, s1) =>
    let e := AppError.exn "Failed to create notification record"
    let upd := updateNotification nid ⟨some .failed, none, some (errText e), none⟩ s1
    (.error e, upd.2)
  | (some _, s1) =>
    match env.sendTwilioSms (c.phone.getD "") (smsMessage deviceName locationUrl) with
    | .error e =>
      let upd := updateNotification nid ⟨some .failed, none, some (errText e), none⟩ s1
      (.error e, upd.2)
    | .ok resp =>
      let upd := updateNotification nid
        ⟨some (if resp.success then .sent else .failed), resp.messageId, resp.error, some env.now⟩ s1
      (.ok ⟨resp.success, nid, .sms, c.phone.getD "", resp.error⟩, upd.2)

/-- `sendEmailAlert`: same shape as `sendSmsAlert` on the email channel. -/
def sendEmailAlert (env : NotifyEnv) (eventId nid : String) (c : EmergencyContact)
    (deviceName locationUrl : String) (s : Store) : Except AppError NotificationResult × Store :=
  match createNotification ⟨nid, eventId, c.id, .email, c.email.getD "", .pending, none, none, none⟩ s with
  | (none, s1) =>
    let e := AppError.exn "Failed to create notification record"
    let upd := updateNotification nid ⟨some .failed, none, some (errText e), none⟩ s1
    (.error e, upd.2)
  | (some _, s1) =>
    match env.sendEmailViaApi (c.email.getD "") (emailSubject deviceName) (emailBody deviceName locationUrl) with
    | .error e =>
      let upd := updateNotification nid ⟨some .failed, none, some (errText e), none⟩ s1
      (.error e, upd.2)
    | .ok resp =>
      let upd := updateNotification nid
        ⟨some (if resp.success then .sent else .failed), resp.messageId, resp.error, some env.now⟩ s1
      (.ok ⟨resp.success, nid, .email, c.email.getD "", resp.error⟩, upd.2)

/-- Failure result returned when no contact channel is usable:
`recipient: contact.phone || contact.email || "unknown"`. -/
def noMethodResult (nid : String) (c : EmergencyContact) : NotificationResult :=
  ⟨false, nid, .sms, c.phone.getD (c.email.getD "unknown"), some "No valid contact method available"⟩

/-- Fallback path of `sendEmergencyAlert` after the sms branch: attempt
email when the contact has one, otherwise return the no-method failure.
An error thrown by the email attempt is not caught here. -/
def sendEmergencyAlertFallback (env : NotifyEnv) (eventId nid : String) (c : EmergencyContact)
    (deviceName locationUrl : String) (s : Store) : Except AppError NotificationResult × Store :=
  match c.email with
  | some _ => sendEmailAlert env eventId nid c deviceName locationUrl s
  | none => (.ok (noMethodResult nid c), s)

/-- `sendEmergencyAlert`: try sms first when the contact has a phone; the
try/catch swallows a thrown sms error and falls through to the email
fallback; a thrown email error propagates. -/
def sendEmergencyAlert (env : NotifyEnv) (nid : String) (sosEvent : SosEvent) (c : EmergencyContact)
    (deviceName locationUrl : String) (s : Store) : Except AppError NotificationResult × Store :=
  match c.phone with
  | some _ =>
    match sendSmsAlert env sosEvent.eventId nid c deviceName locationUrl s with
    | (.ok r, s1) => (.ok r, s1)
    | (.error _, s1) => sendEmergencyAlertFallback env sosEvent.eventId nid c deviceName locationUrl s1
  | none => sendEmergencyAlertFallback env sosEvent.eventId nid c deviceName locationUrl s

/-- Synthetic failure result recorded by the per-contact catch in
`notifyAllContacts`. -/
def syntheticFailure (nid : String) (c : EmergencyContact) (e : AppError) : NotificationResult :=
  ⟨false, nid, .sms, c.phone.getD (c.email.getD "unknown"), some (errText e)⟩

/-- Loop body of `notifyAllContacts`: skip inactive contacts, call
`sendEmergencyAlert` per contact, catch any thrown error and record a
synthetic failure instead of aborting. `ids` is the nanoid supply; the
attempt for the contact at position `i` draws `ids (2*i)` and a synthetic
failure draws `ids (2*i+1)`. -/
def notifyGo (env : NotifyEnv) (ids : Nat → String) (sosEvent : SosEvent)
    (deviceName locationUrl : String) : List EmergencyContact → Nat → Store →
    List NotificationResult × Store
  | [], _, s => ([], s)
  | c :: rest, i, s =>
    if c.isActive then
      match sendEmergencyAlert env (ids (2 * i)) sosEvent c deviceName locationUrl s with
      | (.ok r, s1) =>
        let out := notifyGo env ids sosEvent deviceName locationUrl rest (i + 1) s1
        (r :: out.1, out.2)
      | (.error e, s1) =>
        let out := notifyGo env ids sosEvent deviceName locationUrl rest (i + 1) s1
        (syntheticFailure (ids (2 * i + 1)) c e :: out.1, out.2)
    else notifyGo env ids sosEvent deviceName locationUrl rest (i + 1) s

/-- `notifyAllContacts`: load the device's contacts, fan out one attempt per
active contact, then persist `notificationsSent` as the number of successful
results. -/
def notifyAllContacts (env : NotifyEnv) (ids : Nat → String) (sosEvent : SosEvent)
    (deviceName locationUrl : String) (s : Store) : List NotificationResult × Store :=
  let contacts := getEmergencyContacts sosEvent.deviceId s
  let out := notifyGo env ids sosEvent deviceName locationUrl contacts 0 s
  let successCount := out.1.countP (fun r => r.success)
  let upd := updateSosEvent sosEvent.eventId ⟨none, none, some successCount⟩ out.2
  (out.1, upd.2)

/-- `updateLocation` from `trackingService.ts`: no-op returning null when
the event is missing or not active; otherwise append a location point and
refresh the device's last known location. -/
def updateLocation (now : Int) (eventId deviceId : String) (lat lng : Int)
    (accuracy : Option Int) (s : Store) : Option TrackedLocation × Store :=
  match getSosEventByEventId eventId s with
  | none => (none, s)
  | some ev =>
    if ev.status != SosStatus.active then (none, s)
    else
      match addLocationHistory ⟨eventId, deviceId, lat, lng, accuracy⟩ s with
      | (none, s1) => (none, s1)
      | (some _, s1) =>
        let upd := updateDevice deviceId ⟨none, none, none, some lat, some lng, some now⟩ s1
        (some ⟨eventId, lat, lng, accuracy⟩, upd.2)

/-- Loop of `cleanupExpiredSessions`: delete every session strictly older
than `maxAge` milliseconds, counting the deletions. -/
def cleanupExpiredSessionsGo (now maxAge : Int) : List TrackingSession → Nat × List TrackingSession
  | [] => (0, [])
  | sess :: rest =>
    let out := cleanupExpiredSessionsGo now maxAge rest
    if now - sess.startedAt > maxAge then (out.1 + 1, out.2) else (out.1, sess :: out.2)

/-- Maximum session age of the cleanup sweep: `24 * 60 * 60 * 1000` ms (24 hours). -/
def maxAgeMs : Int := 24 * 60 * 60 * 1000

/-- `cleanupExpiredSessions`: sweep the in-memory registry with a 24-hour
maximum age, returning the number of sessions removed. -/
def cleanupExpiredSessions (now : Int) (sessions : List TrackingSession) : Nat × List TrackingSession :=
  cleanupExpiredSessionsGo now maxAgeMs sessions

/-- Blocked check of `sos.trigger`:
`rateLimit && rateLimit.isBlocked && rateLimit.blockedUntil && rateLimit.blockedUntil > now`. -/
def isBlockedNow (rl : Option SosRateLimit) (now : Int) : Bool :=
  match rl with
  | none => false
  | some r => r.isBlocked && (match r.blockedUntil with | none => false | some t => now < t)

/-- `device.register`: idempotent registration; returns the existing device
when the deviceId is already present, otherwise inserts a fresh row. -/
def deviceRegister (deviceId name phone : String) (email : Option String) (s : Store) :
    Except AppError Device × Store :=
  match getDeviceByDeviceId deviceId s with
  | some existing => (.ok existing, s)
  | none =>
    match createDevice ⟨deviceId, name, phone, email, true, none, none, none⟩ s with
    | (none, s1) => (.error .internalServerError, s1)
    | (some d, s1) => (.ok d, s1)

/-- `contacts.delete`: returns `{ success }` from `deleteEmergencyContact`. -/
def contactsDelete (id : Int) (s : Store) : Bool × Store :=
  deleteEmergencyContact id s

/-- `sos.trigger`: rate-limit check, then create the SosEvent row
(status active, initial coordinates, notificationsSent defaulting to 0),
append the initial location point, and update the device's last known
location. `eventId` models the `nanoid()` draw. -/
def sosTrigger (now : Int) (eventId deviceId : String) (lat lng : Int) (tt : TriggerType)
    (s : Store) : Except AppError SosEvent × Store :=
  if isBlockedNow (getSosRateLimit deviceId s) now then
    (.error .tooManyRequests, s)
  else
    match createSosEvent ⟨eventId, deviceId, .active, tt, lat, lng, 0, some now, none⟩ s with
    | (none, s1) => (.error .internalServerError, s1)
    | (some ev, s1) =>
      let loc := addLocationHistory ⟨eventId, deviceId, lat, lng, none⟩ s1
      let upd := updateDevice deviceId ⟨none, none, none, some lat, some lng, some now⟩ loc.2
      (.ok ev, upd.2)

/-- `sos.resolve`: set status resolved and resolvedAt, `NOT_FOUND` when the
event does not exist. -/
def sosResolve (now : Int) (eventId : String) (s : Store) : Except AppError SosEvent × Store :=
  match updateSosEvent eventId ⟨some .resolved, some now, none⟩ s with
  | (none, s1) => (.error .notFound, s1)
  | (some ev, s1) => (.ok ev, s1)

/-- Store-mutating API operations of the server, used to state the SosEvent
status-transition invariant. -/
inductive Op where
  | trigger (now : Int) (eventId deviceId : String) (lat lng : Int) (tt : TriggerType)
  | resolve (now : Int) (eventId : String)
  | updateLoc (now : Int) (eventId deviceId : String) (lat lng : Int) (accuracy : Option Int)
  | notifyAll (env : NotifyEnv) (ids : Nat → String) (sosEvent : SosEvent) (deviceName locationUrl : String)
  | register (deviceId name phone : String) (email : Option String)
  | deleteContact (id : Int)

/-- Effect of one API operation on the store. -/
def step (op : Op) (s : Store) : Store :=
  match op with
  | .trigger now eid did lat lng tt => (sosTrigger now eid did lat lng tt s).2
  | .resolve now eid => (sosResolve now eid s).2
  | .updateLoc now eid did lat lng acc => (updateLocation now eid did lat lng acc s).2
  | .notifyAll env ids ev dn url => (notifyAllContacts env ids ev dn url s).2
  | .register did name phone email => (deviceRegister did name phone email s).2
  | .deleteContact id => (contactsDelete id s).2

/-- Decimal column type of the coordinate columns, `decimal(precision, scale)`. -/
structure DecimalColumn where
  precision : Nat
  scale : Nat
deriving DecidableEq

/-- Column `devices.lastLocationLat`. -/
def devices_lastLocationLat : DecimalColumn := ⟨10, 8⟩

/-- Column `devices.lastLocationLng`. -/
def devices_lastLocationLng : DecimalColumn := ⟨11, 8⟩

/-- Column `locationHistory.latitude`. -/
def locationHistory_latitude : DecimalColumn := ⟨10, 8⟩

/-- Column `locationHistory.longitude`. -/
def locationHistory_longitude : DecimalColumn := ⟨11, 8⟩

/-- Column `offlineSosQueue.latitude`. -/
def offlineSosQueue_latitude : DecimalColumn := ⟨10, 8⟩

/-- Column `offlineSosQueue.longitude`. -/
def offlineSosQueue_longitude : DecimalColumn := ⟨11, 8⟩

/-- Column `sosEvents.initialLat`. -/
def sosEvents_initialLat : DecimalColumn := ⟨10, 8⟩

/-- Column `sosEvents.initialLng`. -/
def sosEvents_initialLng : DecimalColumn := ⟨11, 8⟩

/-- Frame predicate: the two stores agree on everything except the
`notifications` table. The whole notification fan-out only writes that table
(besides the final `updateSosEvent`, handled separately). -/
def onlyNotifsChanged (s t : Store) : Prop :=
  t.dbAvailable = s.dbAvailable ∧ t.devices = s.devices ∧ t.contacts = s.contacts ∧
  t.sosEvents = s.sosEvents ∧ t.locationHistory = s.locationHistory ∧
  t.rateLimits = s.rateLimits

theorem onlyNotifsChanged_refl (s : Store) : onlyNotifsChanged s s :=
  ⟨rfl, rfl, rfl, rfl, rfl, rfl⟩

theorem onlyNotifsChanged_trans {s t u : Store}
    (h1 : onlyNotifsChanged s t) (h2 : onlyNotifsChanged t u) : onlyNotifsChanged s u :=
  ⟨h2.1.trans h1.1, h2.2.1.trans h1.2.1, h2.2.2.1.trans h1.2.2.1,
   h2.2.2.2.1.trans h1.2.2.2.1, h2.2.2.2.2.1.trans h1.2.2.2.2.1,
   h2.2.2.2.2.2.trans h1.2.2.2.2.2⟩

theorem createNotification_frame (n : Notification) (s : Store) :
    onlyNotifsChanged s (createNotification n s).2 := by
  unfold createNotification
  split <;> exact ⟨rfl, rfl, rfl, rfl, rfl, rfl⟩

theorem updateNotification_frame (nid : String) (u : NotificationUpdates) (s : Store) :
    onlyNotifsChanged s (updateNotification nid u s).2 := by
  unfold updateNotification
  split <;> exact ⟨rfl, rfl, rfl, rfl, rfl, rfl⟩

theorem createNotification_fst_isSome (n : Notification) (s : Store)
    (h : s.dbAvailable = true) : ((createNotification n s).1).isSome := by
  simp only [createNotification, h, if_true]
  exact List.find?_isSome.mpr ⟨n, by simp, by simp⟩

theorem sendSmsAlert_frame (env : NotifyEnv) (eid nid : String) (c : EmergencyContact)
    (dn url : String) (s : Store) :
    onlyNotifsChanged s (sendSmsAlert env eid nid c dn url s).2 := by
  unfold sendSmsAlert
  split
  case h_1 s1 heq =>
    have h1 : onlyNotifsChanged s s1 := by
      have := createNotification_frame ⟨nid, eid, c.id, .sms, c.phone.getD "", .pending, none, none, none⟩ s
      rw [heq] at this; exact this
    exact onlyNotifsChanged_trans h1 (updateNotification_frame _ _ _)
  case h_2 x s1 heq =>
    have h1 : onlyNotifsChanged s s1 := by
      have := createNotification_frame ⟨nid, eid, c.id, .sms, c.phone.getD "", .pending, none, none, none⟩ s
      rw [heq] at this; exact this
    split
    · exact onlyNotifsChanged_trans h1 (updateNotification_frame _ _ _)
    · exact onlyNotifsChanged_trans h1 (updateNotification_frame _ _ _)

theorem sendEmailAlert_frame (env : NotifyEnv) (eid nid : String) (c : EmergencyContact)
    (dn url : String) (s : Store) :
    onlyNotifsChanged s (sendEmailAlert env eid nid c dn url s).2 := by
  unfold sendEmailAlert
  split
  case h_1 s1 heq =>
    have h1 : onlyNotifsChanged s s1 := by
      have := createNotification_frame ⟨nid, eid, c.id, .email, c.email.getD "", .pending, none, none, none⟩ s
      rw [heq] at this; exact this
    exact onlyNotifsChanged_trans h1 (updateNotification_frame _ _ _)
  case h_2 x s1 heq =>
    have h1 : onlyNotifsChanged s s1 := by
      have := createNotification_frame ⟨nid, eid, c.id, .email, c.email.getD "", .pending, none, none, none⟩ s
      rw [heq] at this; exact this
    split
    · exact onlyNotifsChanged_trans h1 (updateNotification_frame _ _ _)
    · exact onlyNotifsChanged_trans h1 (updateNotification_frame _ _ _)

theorem sendEmergencyAlertFallback_frame (env : NotifyEnv) (eid nid : String)
    (c : EmergencyContact) (dn url : String) (s : Store) :
    onlyNotifsChanged s (sendEmergencyAlertFallback env eid nid c dn url s).2 := by
  unfold sendEmergencyAlertFallback
  split
  · exact sendEmailAlert_frame env eid nid c dn url s
  · exact onlyNotifsChanged_refl s

theorem sendEmergencyAlert_frame (env : NotifyEnv) (nid : String) (ev : SosEvent)
    (c : EmergencyContact) (dn url : String) (s : Store) :
    onlyNotifsChanged s (sendEmergencyAlert env nid ev c dn url s).2 := by
  unfold sendEmergencyAlert
  split
  · split
    case h_1 r s1 heq =>
      have := sendSmsAlert_frame env ev.eventId nid c dn url s
      rw [heq] at this; exact this
    case h_2 e s1 heq =>
      have h1 := sendSmsAlert_frame env ev.eventId nid c dn url s
      rw [heq] at h1
      exact onlyNotifsChanged_trans h1 (sendEmergencyAlertFallback_frame env ev.eventId nid c dn url s1)
  · exact sendEmergencyAlertFallback_frame env ev.eventId nid c dn url s

theorem notifyGo_frame (env : NotifyEnv) (ids : Nat → String) (ev : SosEvent)
    (dn url : String) (cs : List EmergencyContact) (i : Nat) (s : Store) :
    onlyNotifsChanged s (notifyGo env ids ev dn url cs i s).2 := by
  induction cs generalizing i s with
  | nil => exact onlyNotifsChanged_refl s
  | cons c rest ih =>
    unfold notifyGo
    split
    · split
      case h_1 r s1 heq =>
        have h1 := sendEmergencyAlert_frame env (ids (2 * i)) ev c dn url s
        rw [heq] at h1
        exact onlyNotifsChanged_trans h1 (ih (i + 1) s1)
      case h_2 e s1 heq =>
        have h1 := sendEmergencyAlert_frame env (ids (2 * i)) ev c dn url s
        rw [heq] at h1
        exact onlyNotifsChanged_trans h1 (ih (i + 1) s1)
    · exact ih (i + 1) s

/-- Pure characterization of the result value of `sendSmsAlert` when the
db is available: the outcome depends only on the environment's Twilio call. -/
def sendSmsAlertVal (env : NotifyEnv) (nid : String) (c : EmergencyContact)
    (dn url : String) : Except AppError NotificationResult :=
  match env.sendTwilioSms (c.phone.getD "") (smsMessage dn url) with
  | .error e => .error e
  | .ok resp => .ok ⟨resp.success, nid, .sms, c.phone.getD "", resp.error⟩

/-- Pure characterization of the result value of `sendEmailAlert` when the
db is available. -/
def sendEmailAlertVal (env : NotifyEnv) (nid : String) (c : EmergencyContact)
    (dn url : String) : Except AppError NotificationResult :=
  match env.sendEmailViaApi (c.email.getD "") (emailSubject dn) (emailBody dn url) with
  | .error e => .error e
  | .ok resp => .ok ⟨resp.success, nid, .email, c.email.getD "", resp.error⟩

/-- Pure characterization of the fallback path of `sendEmergencyAlert`. -/
def sendEmergencyAlertFallbackVal (env : NotifyEnv) (nid : String) (c : EmergencyContact)
    (dn url : String) : Except AppError NotificationResult :=
  match c.email with
  | some _ => sendEmailAlertVal env nid c dn url
  | none => .ok (noMethodResult nid c)

/-- Pure characterization of the result value of `sendEmergencyAlert` when
the db is available: sms first when a phone exists, a thrown sms error is
swallowed into the fallback, a thrown email error surfaces. -/
def sendEmergencyAlertVal (env : NotifyEnv) (nid : String) (c : EmergencyContact)
    (dn url : String) : Except AppError NotificationResult :=
  match c.phone with
  | some _ =>
    match sendSmsAlertVal env nid c dn url with
    | .ok r => .ok r
    | .error _ => sendEmergencyAlertFallbackVal env nid c dn url
  | none => sendEmergencyAlertFallbackVal env nid c dn url

/-- Pure characterization of the result list of the fan-out loop. -/
def notifyResults (env : NotifyEnv) (ids : Nat → String) (dn url : String) :
    List EmergencyContact → Nat → List NotificationResult
  | [], _ => []
  | c :: rest, i =>
    if c.isActive then
      (match sendEmergencyAlertVal env (ids (2 * i)) c dn url with
       | .ok r => r
       | .error e => syntheticFailure (ids (2 * i + 1)) c e) :: notifyResults env ids dn url rest (i + 1)
    else notifyResults env ids dn url rest (i + 1)

theorem sendSmsAlert_fst (env : NotifyEnv) (eid nid : String) (c : EmergencyContact)
    (dn url : String) (s : Store) (h : s.dbAvailable = true) :
    (sendSmsAlert env eid nid c dn url s).1 = sendSmsAlertVal env nid c dn url := by
  unfold sendSmsAlert sendSmsAlertVal
  split
  case h_1 s1 heq =>
    have := createNotification_fst_isSome ⟨nid, eid, c.id, .sms, c.phone.getD "", .pending, none, none, none⟩ s h
    rw [heq] at this
    simp at this
  case h_2 x s1 heq =>
    split <;> rfl

theorem sendEmailAlert_fst (env : NotifyEnv) (eid nid : String) (c : EmergencyContact)
    (dn url : String) (s : Store) (h : s.dbAvailable = true) :
    (sendEmailAlert env eid nid c dn url s).1 = sendEmailAlertVal env nid c dn url := by
  unfold sendEmailAlert sendEmailAlertVal
  split
  case h_1 s1 heq =>
    have := createNotification_fst_isSome ⟨nid, eid, c.id, .email, c.email.getD "", .pending, none, none, none⟩ s h
    rw [heq] at this
    simp at this
  case h_2 x s1 heq =>
    split <;> rfl

theorem sendEmergencyAlertFallback_fst (env : NotifyEnv) (eid nid : String)
    (c : EmergencyContact) (dn url : String) (s : Store) (h : s.dbAvailable = true) :
    (sendEmergencyAlertFallback env eid nid c dn url s).1 =
      sendEmergencyAlertFallbackVal env nid c dn url := by
  unfold sendEmergencyAlertFallback sendEmergencyAlertFallbackVal
  split
  · exact sendEmailAlert_fst env eid nid c dn url s h
  · rfl

theorem sendEmergencyAlert_fst (env : NotifyEnv) (nid : String) (ev : SosEvent)
    (c : EmergencyContact) (dn url : String) (s : Store) (h : s.dbAvailable = true) :
    (sendEmergencyAlert env nid ev c dn url s).1 = sendEmergencyAlertVal env nid c dn url := by
  unfold sendEmergencyAlert sendEmergencyAlertVal
  split
  case h_1 p hp =>
    split
    case h_1 r s1 heq =>
      have hv := sendSmsAlert_fst env ev.eventId nid c dn url s h
      rw [heq] at hv
      rw [← hv]
    case h_2 e s1 heq =>
      have hv := sendSmsAlert_fst env ev.eventId nid c dn url s h
      rw [heq] at hv
      rw [← hv]
      have h1 : s1.dbAvailable = true := by
        have := sendSmsAlert_frame env ev.eventId nid c dn url s
        rw [heq] at this
        rw [this.1, h]
      exact sendEmergencyAlertFallback_fst env ev.eventId nid c dn url s1 h1
  case h_2 hp =>
    exact sendEmergencyAlertFallback_fst env ev.eventId nid c dn url s h

theorem notifyGo_fst (env : NotifyEnv) (ids : Nat → String) (ev : SosEvent)
    (dn url : String) (cs : List EmergencyContact) (i : Nat) (s : Store)
    (h : s.dbAvailable = true) :
    (notifyGo env ids ev dn url cs i s).1 = notifyResults env ids dn url cs i := by
  induction cs generalizing i s with
  | nil => rfl
  | cons c rest ih =>
    unfold notifyGo notifyResults
    split
    · split
      case h_1 r s1 heq =>
        have hv := sendEmergencyAlert_fst env (ids (2 * i)) ev c dn url s h
        rw [heq] at hv
        have h1 : s1.dbAvailable = true := by
          have := sendEmergencyAlert_frame env (ids (2 * i)) ev c dn url s
          rw [heq] at this
          rw [this.1, h]
        simp only [← hv, ih (i + 1) s1 h1]
      case h_2 e s1 heq =>
        have hv := sendEmergencyAlert_fst env (ids (2 * i)) ev c dn url s h
        rw [heq] at hv
        have h1 : s1.dbAvailable = true := by
          have := sendEmergencyAlert_frame env (ids (2 * i)) ev c dn url s
          rw [heq] at this
          rw [this.1, h]
        simp only [← hv, ih (i + 1) s1 h1]
    · exact ih (i + 1) s h

theorem notifyResults_length (env : NotifyEnv) (ids : Nat → String) (dn url : String)
    (cs : List EmergencyContact) (i : Nat) :
    (notifyResults env ids dn url cs i).length = cs.countP (fun c => c.isActive) := by
  induction cs generalizing i with
  | nil => rfl
  | cons c rest ih =>
    unfold notifyResults
    by_cases hc : c.isActive = true
    · simp [hc, List.countP_cons, ih (i + 1)]
    · simp only [Bool.not_eq_true] at hc
      simp [hc, List.countP_cons, ih (i + 1)]

theorem orderedInsert_perm (c : EmergencyContact) (l : List EmergencyContact) :
    (orderedInsert c l).Perm (c :: l) := by
  induction l with
  | nil => exact List.Perm.refl _
  | cons d rest ih =>
    unfold orderedInsert
    split
    · exact List.Perm.refl _
    · exact (List.Perm.cons d ih).trans (List.Perm.swap c d rest)

theorem sortByPriority_perm (l : List EmergencyContact) :
    (sortByPriority l).Perm l := by
  induction l with
  | nil => exact List.Perm.refl _
  | cons c rest ih =>
    exact (orderedInsert_perm c (sortByPriority rest)).trans (List.Perm.cons c ih)

theorem getEmergencyContacts_countP (deviceId : String) (s : Store)
    (h : s.dbAvailable = true) (p : EmergencyContact → Bool) :
    (getEmergencyContacts deviceId s).countP p =
      ((s.contacts.filter (fun c => c.deviceId == deviceId)).filter p).length := by
  unfold getEmergencyContacts
  rw [if_pos h]
  rw [List.Perm.countP_eq p (sortByPriority_perm _)]
  exact List.countP_eq_length_filter _ _

/-- Sample registered device used by concrete instantiations. -/
def exDevice : Device := ⟨"d1", "Asha", "9999999999", none, true, none, none, none⟩

/-- Sample active contact with a phone and an email. -/
def exContact1 : EmergencyContact := ⟨1, "d1", "Priya", some "8888888888", some "p@x.y", 0, true⟩

/-- Sample inactive contact. -/
def exContact2 : EmergencyContact := ⟨2, "d1", "Bee", some "7777777777", none, 1, false⟩

/-- Sample active contact with neither phone nor email. -/
def exContact3 : EmergencyContact := ⟨3, "d1", "Cee", none, none, 2, true⟩

/-- Sample active SOS event. -/
def exEvent : SosEvent := ⟨"e1", "d1", .active, .manual, 12, 77, 0, some 0, none⟩

/-- Sample resolved SOS event. -/
def exResolvedEvent : SosEvent := ⟨"e2", "d1", .resolved, .manual, 12, 77, 0, some 0, some 5⟩

/-- Sample store with an available db, one device, two contacts and two events. -/
def exStore : Store :=
  ⟨true, [exDevice], [exContact1, exContact2], [exEvent, exResolvedEvent], [], [], []⟩

/-- Sample store whose device is currently rate-limit blocked until time 100. -/
def exBlockedStore : Store :=
  ⟨true, [exDevice], [], [], [], [], [⟨"d1", 3, 0, true, some 100⟩]⟩

/-- Environment whose external sends always succeed. -/
def envOk : NotifyEnv :=
  ⟨0, fun _ _ => .ok ⟨true, some "m1", none⟩, fun _ _ _ => .ok ⟨true, some "m2", none⟩⟩

/-- Environment whose external sends always throw. -/
def envThrows : NotifyEnv :=
  ⟨0, fun _ _ => .error (.exn "sms down"), fun _ _ _ => .error (.exn "email down")⟩

/-- Sample nanoid supply. -/
def exIds : Nat → String := fun n => toString n

/-- C2: for a device whose rate-limit record has isBlocked true and
blockedUntil strictly in the future, `sos.trigger` fails with the
"too many requests" error and the store is returned untouched: no SosEvent
row, no LocationHistory row and no device update are produced. -/
theorem sosTrigger_rateLimited (now : Int) (eid did : String) (lat lng : Int)
    (tt : TriggerType) (s : Store) (rl : SosRateLimit) (t : Int)
    (h1 : getSosRateLimit did s = some rl) (h2 : rl.isBlocked = true)
    (h3 : rl.blockedUntil = some t) (h4 : now < t) :
    sosTrigger now eid did lat lng tt s = (.error .tooManyRequests, s) := by
  have hb : isBlockedNow (getSosRateLimit did s) now = true := by
    rw [h1]
    simp [isBlockedNow, h2, h3, h4]
  unfold sosTrigger
  rw [hb]
  simp

/-- C2 witness at a concrete blocked store. -/
theorem sosTrigger_rateLimited_witness :
    sosTrigger 0 "e9" "d1" 12 77 .manual exBlockedStore = (.error .tooManyRequests, exBlockedStore) :=
  sosTrigger_rateLimited 0 "e9" "d1" 12 77 .manual exBlockedStore ⟨"d1", 3, 0, true, some 100⟩
    100 rfl rfl rfl (by decide)

/-- C7: `device.register` is idempotent: when the deviceId is already
registered, registering again with any name, phone or email returns the
existing device unchanged and leaves the store untouched (no new row). -/
theorem deviceRegister_idempotent (deviceId name phone : String) (email : Option String)
    (s : Store) (d : Device) (h : getDeviceByDeviceId deviceId s = some d) :
    deviceRegister deviceId name phone email s = (.ok d, s) := by
  unfold deviceRegister
  rw [h]

/-- C7 witness: re-registering the sample device with different data
returns the original row and an unchanged store. -/
theorem deviceRegister_idempotent_witness :
    deviceRegister "d1" "Other" "0000000000" none exStore = (.ok exDevice, exStore) :=
  deviceRegister_idempotent "d1" "Other" "0000000000" none exStore exDevice rfl

/-- C8 counterexample: the claim asserts every stored longitude has 7
fractional decimal digits, but the `sosEvents.initialLng` column is
`decimal(11,8)`: its scale is 8, not 7. -/
theorem sosEvents_initialLng_scale_not_seven :
    sosEvents_initialLng.scale = 8 ∧ ¬ (sosEvents_initialLng.scale = 7) := by
  constructor
  · rfl
  · decide

/-- C8 (amended): every coordinate column of the four coordinate-bearing
tables stores 8 fractional decimal digits; latitudes are `decimal(10,8)`
and longitudes are `decimal(11,8)`. -/
theorem coordinate_columns_decimal :
    devices_lastLocationLat = ⟨10, 8⟩ ∧ devices_lastLocationLng = ⟨11, 8⟩ ∧
    locationHistory_latitude = ⟨10, 8⟩ ∧ locationHistory_longitude = ⟨11, 8⟩ ∧
    offlineSosQueue_latitude = ⟨10, 8⟩ ∧ offlineSosQueue_longitude = ⟨11, 8⟩ ∧
    sosEvents_initialLat = ⟨10, 8⟩ ∧ sosEvents_initialLng = ⟨11, 8⟩ ∧
    devices_lastLocationLat.scale = 8 ∧ devices_lastLocationLng.scale = 8 ∧
    locationHistory_latitude.scale = 8 ∧ locationHistory_longitude.scale = 8 ∧
    offlineSosQueue_latitude.scale = 8 ∧ offlineSosQueue_longitude.scale = 8 ∧
    sosEvents_initialLat.scale = 8 ∧ sosEvents_initialLng.scale = 8 := by
  decide

/-- C9: the cleanup sweep keeps exactly the sessions at most 24 hours old
(in order), removes exactly the strictly older ones, and returns the number
removed. -/
theorem cleanupExpiredSessions_spec (now : Int) (l : List TrackingSession) :
    (cleanupExpiredSessions now l).2 =
        l.filter (fun sess => decide (now - sess.startedAt ≤ maxAgeMs))
    ∧ (cleanupExpiredSessions now l).1 =
        l.countP (fun sess => decide (now - sess.startedAt > maxAgeMs))
    ∧ ∀ sess, sess ∈ (cleanupExpiredSessions now l).2 ↔
        (sess ∈ l ∧ now - sess.startedAt ≤ maxAgeMs) := by
  have main : (cleanupExpiredSessions now l).2 =
        l.filter (fun sess => decide (now - sess.startedAt ≤ maxAgeMs))
      ∧ (cleanupExpiredSessions now l).1 =
        l.countP (fun sess => decide (now - sess.startedAt > maxAgeMs)) := by
    unfold cleanupExpiredSessions
    induction l with
    | nil => exact ⟨rfl, rfl⟩
    | cons sess rest ih =>
      unfold cleanupExpiredSessionsGo
      by_cases hc : now - sess.startedAt > maxAgeMs
      · have hc2 : ¬ (now - sess.startedAt ≤ maxAgeMs) := not_le.mpr hc
        rw [if_pos hc]
        simp only [List.filter_cons, List.countP_cons, ih.1, ih.2]
        constructor
        · rw [if_neg (by simpa using hc2)]
        · simp [hc]
      · have hc2 : now - sess.startedAt ≤ maxAgeMs := not_lt.mp hc
        rw [if_neg hc]
        simp only [List.filter_cons, List.countP_cons, ih.1, ih.2]
        constructor
        · rw [if_pos (by simpa using hc2)]
        · simp [hc]
  refine ⟨main.1, main.2, ?_⟩
  intro sess
  rw [main.1]
  simp [List.mem_filter]

/-- C10: `contacts.delete` reports success exactly when the backing store
is available, whether or not a contact with the given id exists; deleting a
missing contact is never a failure, and success false occurs only when the
db is unavailable. -/
theorem contactsDelete_success_iff_available (id : Int) (s : Store) :
    (contactsDelete id s).1 = s.dbAvailable := by
  unfold contactsDelete deleteEmergencyContact
  by_cases h : s.dbAvailable = true <;> simp [h]

theorem getSosEventByEventId_dbAvailable {eid : String} {s : Store} {ev : SosEvent}
    (h : getSosEventByEventId eid s = some ev) : s.dbAvailable = true := by
  by_cases hd : s.dbAvailable = true
  · exact hd
  · unfold getSosEventByEventId at h
    rw [if_neg hd] at h
    cases h

theorem addLocationHistory_sosEvents (l : LocationHistory) (s : Store) :
    (addLocationHistory l s).2.sosEvents = s.sosEvents := by
  unfold addLocationHistory
  split <;> rfl

theorem updateDevice_sosEvents (did : String) (u : DeviceUpdates) (s : Store) :
    (updateDevice did u s).2.sosEvents = s.sosEvents := by
  unfold updateDevice
  split <;> rfl

theorem createDevice_sosEvents (d : Device) (s : Store) :
    (createDevice d s).2.sosEvents = s.sosEvents := by
  unfold createDevice
  split <;> rfl

theorem deleteEmergencyContact_sosEvents (id : Int) (s : Store) :
    (deleteEmergencyContact id s).2.sosEvents = s.sosEvents := by
  unfold deleteEmergencyContact
  split <;> rfl

/-- C6: `updateLocation` returns null and leaves the store untouched when
the event is missing or not active (no LocationHistory row is appended);
otherwise it appends exactly one LocationHistory point with the given
coordinates, refreshes the device's last known location, and returns the
recorded point. -/
theorem updateLocation_spec (now : Int) (eid did : String) (lat lng : Int)
    (acc : Option Int) (s : Store) :
    ((getSosEventByEventId eid s = none → updateLocation now eid did lat lng acc s = (none, s))
    ∧ (∀ ev, getSosEventByEventId eid s = some ev → ev.status ≠ .active →
        updateLocation now eid did lat lng acc s = (none, s))
    ∧ (∀ ev, getSosEventByEventId eid s = some ev → ev.status = .active →
        (updateLocation now eid did lat lng acc s).1 = some ⟨eid, lat, lng, acc⟩
        ∧ (updateLocation now eid did lat lng acc s).2.locationHistory =
            s.locationHistory ++ [⟨eid, did, lat, lng, acc⟩]
        ∧ (updateLocation now eid did lat lng acc s).2.devices =
            (s.devices.map (fun d => if d.deviceId == did
              then applyDeviceUpdates ⟨none, none, none, some lat, some lng, some now⟩ d else d))
        ∧ (updateLocation now eid did lat lng acc s).2.sosEvents = s.sosEvents)) := by
  refine ⟨?_, ?_, ?_⟩
  · intro h
    unfold updateLocation
    rw [h]
  · intro ev h hev
    unfold updateLocation
    rw [h]
    simp only [bne_iff_ne, ne_eq]
    rw [if_pos hev]
  · intro ev h hev
    have hd : s.dbAvailable = true := getSosEventByEventId_dbAvailable h
    have hadd : addLocationHistory ⟨eid, did, lat, lng, acc⟩ s =
        (some ⟨eid, did, lat, lng, acc⟩, { s with locationHistory := s.locationHistory ++ [⟨eid, did, lat, lng, acc⟩] }) := by
      unfold addLocationHistory
      rw [if_pos hd]
    have hmain : updateLocation now eid did lat lng acc s =
        (some ⟨eid, lat, lng, acc⟩,
          (updateDevice did ⟨none, none, none, some lat, some lng, some now⟩
            { s with locationHistory := s.locationHistory ++ [⟨eid, did, lat, lng, acc⟩] }).2) := by
      unfold updateLocation
      rw [h]
      simp only [bne_iff_ne, ne_eq, hev, not_true_eq_false, if_false, hadd]
    rw [hmain]
    refine ⟨rfl, ?_, ?_, ?_⟩
    · unfold updateDevice
      rw [if_pos (show Store.dbAvailable { s with locationHistory := s.locationHistory ++ [⟨eid, did, lat, lng, acc⟩] } = true from hd)]
    · unfold updateDevice
      rw [if_pos (show Store.dbAvailable { s with locationHistory := s.locationHistory ++ [⟨eid, did, lat, lng, acc⟩] } = true from hd)]
    · unfold updateDevice
      rw [if_pos (show Store.dbAvailable { s with locationHistory := s.locationHistory ++ [⟨eid, did, lat, lng, acc⟩] } = true from hd)]

/-- C6 witness: on the sample store, updating the resolved event e2 is a
null no-op, and updating the active event e1 returns the recorded point. -/
theorem updateLocation_spec_witness :
    updateLocation 9 "e2" "d1" 1 2 none exStore = (none, exStore)
    ∧ (updateLocation 9 "e1" "d1" 1 2 none exStore).1 = some ⟨"e1", 1, 2, none⟩ :=
  ⟨(updateLocation_spec 9 "e2" "d1" 1 2 none exStore).2.1 exResolvedEvent rfl (by decide),
   ((updateLocation_spec 9 "e1" "d1" 1 2 none exStore).2.2 exEvent rfl rfl).1⟩

/-- C3: a trigger that is not rate-limited, with the db available and a
fresh eventId, succeeds and creates exactly one SosEvent row with status
active and the input coordinates, appends exactly one LocationHistory row
with the input coordinates, updates the device's last-known-location fields
to the input coordinates, and touches nothing else. -/
theorem sosTrigger_success (now : Int) (eid did : String) (lat lng : Int) (tt : TriggerType)
    (s : Store) (h : s.dbAvailable = true)
    (hb : isBlockedNow (getSosRateLimit did s) now = false)
    (hf : ∀ e ∈ s.sosEvents, e.eventId ≠ eid) :
    (sosTrigger now eid did lat lng tt s).1 = .ok ⟨eid, did, .active, tt, lat, lng, 0, some now, none⟩
    ∧ (sosTrigger now eid did lat lng tt s).2.sosEvents =
        s.sosEvents ++ [⟨eid, did, .active, tt, lat, lng, 0, some now, none⟩]
    ∧ (sosTrigger now eid did lat lng tt s).2.locationHistory =
        s.locationHistory ++ [⟨eid, did, lat, lng, none⟩]
    ∧ (sosTrigger now eid did lat lng tt s).2.devices =
        (s.devices.map (fun d => if d.deviceId == did
          then applyDeviceUpdates ⟨none, none, none, some lat, some lng, some now⟩ d else d))
    ∧ (∀ d, d ∈ (sosTrigger now eid did lat lng tt s).2.devices → d.deviceId = did →
        d.lastLocationLat = some lat ∧ d.lastLocationLng = some lng)
    ∧ (sosTrigger now eid did lat lng tt s).2.contacts = s.contacts
    ∧ (sosTrigger now eid did lat lng tt s).2.notifications = s.notifications := by
  have hfind : s.sosEvents.find? (fun e => e.eventId == eid) = none := by
    rw [List.find?_eq_none]
    intro e he
    simpa using hf e he
  have hs1 : Store.dbAvailable { s with sosEvents :=
      s.sosEvents ++ [⟨eid, did, .active, tt, lat, lng, 0, some now, none⟩] } = true := h
  have hcreate : createSosEvent ⟨eid, did, .active, tt, lat, lng, 0, some now, none⟩ s =
      (some ⟨eid, did, .active, tt, lat, lng, 0, some now, none⟩,
        { s with sosEvents := s.sosEvents ++ [⟨eid, did, .active, tt, lat, lng, 0, some now, none⟩] }) := by
    unfold createSosEvent getSosEventByEventId
    simp [h, List.find?_append, hfind]
  have hmain : sosTrigger now eid did lat lng tt s =
      (.ok ⟨eid, did, .active, tt, lat, lng, 0, some now, none⟩,
        (updateDevice did ⟨none, none, none, some lat, some lng, some now⟩
          (addLocationHistory ⟨eid, did, lat, lng, none⟩
            { s with sosEvents := s.sosEvents ++ [⟨eid, did, .active, tt, lat, lng, 0, some now, none⟩] }).2).2) := by
    unfold sosTrigger
    rw [hb]
    simp only [Bool.false_eq_true, if_false, hcreate]
  have hadd : (addLocationHistory ⟨eid, did, lat, lng, none⟩
      { s with sosEvents := s.sosEvents ++ [⟨eid, did, .active, tt, lat, lng, 0, some now, none⟩] }).2 =
      { s with sosEvents := s.sosEvents ++ [⟨eid, did, .active, tt, lat, lng, 0, some now, none⟩],
               locationHistory := s.locationHistory ++ [⟨eid, did, lat, lng, none⟩] } := by
    unfold addLocationHistory
    rw [if_pos hs1]
  rw [hmain, hadd]
  have hs2 : Store.dbAvailable { s with
      sosEvents := s.sosEvents ++ [⟨eid, did, .active, tt, lat, lng, 0, some now, none⟩],
      locationHistory := s.locationHistory ++ [⟨eid, did, lat, lng, none⟩] } = true := h
  have hupd : (updateDevice did ⟨none, none, none, some lat, some lng, some now⟩
      { s with sosEvents := s.sosEvents ++ [⟨eid, did, .active, tt, lat, lng, 0, some now, none⟩],
               locationHistory := s.locationHistory ++ [⟨eid, did, lat, lng, none⟩] }).2 =
      { s with sosEvents := s.sosEvents ++ [⟨eid, did, .active, tt, lat, lng, 0, some now, none⟩],
               locationHistory := s.locationHistory ++ [⟨eid, did, lat, lng, none⟩],
               devices := (s.devices.map (fun d => if d.deviceId == did
                 then applyDeviceUpdates ⟨none, none, none, some lat, some lng, some now⟩ d else d)) } := by
    unfold updateDevice
    rw [if_pos hs2]
  rw [hupd]
  refine ⟨rfl, rfl, rfl, rfl, ?_, rfl, rfl⟩
  intro d hd hdid
  simp only [List.mem_map] at hd
  obtain ⟨d0, hd0, hfd⟩ := hd
  by_cases hb0 : d0.deviceId == did
  · rw [if_pos hb0] at hfd
    rw [← hfd]
    exact ⟨rfl, rfl⟩
  · rw [if_neg hb0] at hfd
    rw [← hfd] at hdid
    exact absurd hdid (by simpa using hb0)

/-- C3 witness at the sample store with a fresh event id. -/
theorem sosTrigger_success_witness :
    (sosTrigger 7 "e3" "d1" 21 34 .manual exStore).1 =
        .ok ⟨"e3", "d1", .active, .manual, 21, 34, 0, some 7, none⟩
    ∧ (sosTrigger 7 "e3" "d1" 21 34 .manual exStore).2.locationHistory =
        [⟨"e3", "d1", 21, 34, none⟩] := by
  have h := sosTrigger_success 7 "e3" "d1" 21 34 .manual exStore rfl rfl (by decide)
  exact ⟨h.1, h.2.2.1⟩

/-- C1: for every environment of external send outcomes (including ones
that throw), the fan-out produces exactly one result per active contact of
the event's device (inactive contacts are skipped), a thrown per-contact
error is caught and recorded as a synthetic failure result without
aborting the loop (captured by the `notifyResults` characterization), and
`notificationsSent` is persisted on the event as the number of results
with success true. -/
theorem notifyAllContacts_spec (env : NotifyEnv) (ids : Nat → String) (ev : SosEvent)
    (dn url : String) (s : Store) (h : s.dbAvailable = true) :
    (notifyAllContacts env ids ev dn url s).1 =
        notifyResults env ids dn url (getEmergencyContacts ev.deviceId s) 0
    ∧ (notifyAllContacts env ids ev dn url s).1.length =
        ((s.contacts.filter (fun c => c.deviceId == ev.deviceId)).filter (fun c => c.isActive)).length
    ∧ (notifyAllContacts env ids ev dn url s).2.sosEvents =
        (s.sosEvents.map (fun e => if e.eventId == ev.eventId
          then applySosEventUpdates ⟨none, none,
            some ((notifyAllContacts env ids ev dn url s).1.countP (fun r => r.success))⟩ e
          else e)) := by
  have hgo := notifyGo_fst env ids ev dn url (getEmergencyContacts ev.deviceId s) 0 s h
  have hframe := notifyGo_frame env ids ev dn url (getEmergencyContacts ev.deviceId s) 0 s
  have hfst : (notifyAllContacts env ids ev dn url s).1 =
      (notifyGo env ids ev dn url (getEmergencyContacts ev.deviceId s) 0 s).1 := by
    unfold notifyAllContacts
    rfl
  refine ⟨hfst.trans hgo, ?_, ?_⟩
  · rw [hfst.trans hgo, notifyResults_length]
    exact getEmergencyContacts_countP ev.deviceId s h _
  · have havail : (notifyGo env ids ev dn url (getEmergencyContacts ev.deviceId s) 0 s).2.dbAvailable = true := by
      rw [hframe.1, h]
    have hsos : (notifyGo env ids ev dn url (getEmergencyContacts ev.deviceId s) 0 s).2.sosEvents = s.sosEvents :=
      hframe.2.2.2.1
    have hsnd : (notifyAllContacts env ids ev dn url s).2 =
        (updateSosEvent ev.eventId ⟨none, none,
          some ((notifyGo env ids ev dn url (getEmergencyContacts ev.deviceId s) 0 s).1.countP (fun r => r.success))⟩
          (notifyGo env ids ev dn url (getEmergencyContacts ev.deviceId s) 0 s).2).2 := by
      unfold notifyAllContacts
      rfl
    rw [hsnd, hfst]
    unfold updateSosEvent
    rw [if_pos havail]
    simp only [hsos]

/-- C1 witness: on the sample store (one active contact with phone and
email, one inactive contact) under an environment whose sends all throw,
the loop still produces exactly one attempt. -/
theorem notifyAllContacts_spec_witness :
    (notifyAllContacts envThrows exIds exEvent "Asha" "u" exStore).1.length = 1 :=
  ((notifyAllContacts_spec envThrows exIds exEvent "Asha" "u" exStore rfl).2.1).trans (by rfl)

/-- C4: `sendEmergencyAlert` attempts sms first when the contact has a
phone; a thrown sms error is swallowed and the email channel is attempted
when an email exists (so a thrown email error propagates out as the
result of the email attempt); when no channel is usable the result is a
failure carrying the phone if present, else the email, else "unknown". -/
theorem sendEmergencyAlert_channels (env : NotifyEnv) (nid : String) (ev : SosEvent)
    (c : EmergencyContact) (dn url : String) (s : Store) (h : s.dbAvailable = true) :
    ((∀ p r, c.phone = some p → sendSmsAlertVal env nid c dn url = .ok r →
        (sendEmergencyAlert env nid ev c dn url s).1 = .ok r)
    ∧ (∀ p e m, c.phone = some p → sendSmsAlertVal env nid c dn url = .error e → c.email = some m →
        (sendEmergencyAlert env nid ev c dn url s).1 = sendEmailAlertVal env nid c dn url)
    ∧ (∀ p e, c.phone = some p → sendSmsAlertVal env nid c dn url = .error e → c.email = none →
        (sendEmergencyAlert env nid ev c dn url s).1 = .ok (noMethodResult nid c)
        ∧ (noMethodResult nid c).recipient = p)
    ∧ (∀ m, c.phone = none → c.email = some m →
        (sendEmergencyAlert env nid ev c dn url s).1 = sendEmailAlertVal env nid c dn url)
    ∧ (c.phone = none → c.email = none →
        (sendEmergencyAlert env nid ev c dn url s).1 = .ok (noMethodResult nid c)
        ∧ (noMethodResult nid c).recipient = "unknown")) := by
  have hfst := sendEmergencyAlert_fst env nid ev c dn url s h
  refine ⟨?_, ?_, ?_, ?_, ?_⟩
  · intro p r hp hsms
    rw [hfst]
    unfold sendEmergencyAlertVal
    rw [hp, hsms]
  · intro p e m hp hsms hm
    rw [hfst]
    unfold sendEmergencyAlertVal sendEmergencyAlertFallbackVal
    rw [hp, hsms, hm]
  · intro p e hp hsms hm
    constructor
    · rw [hfst]
      unfold sendEmergencyAlertVal sendEmergencyAlertFallbackVal
      rw [hp, hsms, hm]
    · simp [noMethodResult, hp]
  · intro m hp hm
    rw [hfst]
    unfold sendEmergencyAlertVal sendEmergencyAlertFallbackVal
    rw [hp, hm]
  · intro hp hm
    constructor
    · rw [hfst]
      unfold sendEmergencyAlertVal sendEmergencyAlertFallbackVal
      rw [hp, hm]
    · simp [noMethodResult, hp, hm]

/-- C4 witness: a contact with neither phone nor email yields the failure
result with recipient "unknown". -/
theorem sendEmergencyAlert_channels_witness :
    (sendEmergencyAlert envOk "n1" exEvent exContact3 "Asha" "u" exStore).1 =
        .ok (noMethodResult "n1" exContact3)
    ∧ (noMethodResult "n1" exContact3).recipient = "unknown" :=
  (sendEmergencyAlert_channels envOk "n1" exEvent exContact3 "Asha" "u" exStore rfl).2.2.2.2 rfl rfl

/-- Invariant maintained by the server: every stored SosEvent is either
active or resolved (the declared cancelled and expired statuses are never
produced by any code path). -/
def statusOk (s : Store) : Prop :=
  ∀ e ∈ s.sosEvents, e.status = SosStatus.active ∨ e.status = SosStatus.resolved

/-- Allowed change of a status across one operation: unchanged, or a
transition out of active into a terminal status. -/
def statusTransitionOk (a b : SosStatus) : Prop :=
  b = a ∨ (a = SosStatus.active ∧
    (b = SosStatus.resolved ∨ b = SosStatus.cancelled ∨ b = SosStatus.expired))

/-- Decomposition of one operation's effect on the `sosEvents` table: every
pre-existing row is mapped by an eventId-preserving function whose status
change is an allowed transition and which fixes every non-active status,
and every appended row starts active; the status invariant is preserved. -/
def terminalDecomp (s t : Store) : Prop :=
  ∃ (f : SosEvent → SosEvent) (added : List SosEvent),
    t.sosEvents = s.sosEvents.map f ++ added
    ∧ (∀ e ∈ s.sosEvents, (f e).eventId = e.eventId ∧ statusTransitionOk e.status (f e).status
        ∧ (e.status ≠ SosStatus.active → (f e).status = e.status))
    ∧ (∀ a ∈ added, a.status = SosStatus.active)
    ∧ statusOk t

theorem terminalDecomp_of_eq {s t : Store} (hInv : statusOk s)
    (hts : t.sosEvents = s.sosEvents) : terminalDecomp s t := by
  refine ⟨fun e => e, [], by simp [hts], ?_, by simp, ?_⟩
  · intro e _
    exact ⟨rfl, Or.inl rfl, fun _ => rfl⟩
  · intro e he
    rw [hts] at he
    exact hInv e he

theorem terminalDecomp_of_append {s t : Store} (hInv : statusOk s) (ev : SosEvent)
    (hev : ev.status = SosStatus.active) (hts : t.sosEvents = s.sosEvents ++ [ev]) :
    terminalDecomp s t := by
  refine ⟨fun e => e, [ev], by simp [hts], ?_, ?_, ?_⟩
  · intro e _
    exact ⟨rfl, Or.inl rfl, fun _ => rfl⟩
  · intro a ha
    rw [List.mem_singleton.mp ha]
    exact hev
  · intro e he
    rw [hts] at he
    rcases List.mem_append.mp he with h1 | h2
    · exact hInv e h1
    · rw [List.mem_singleton.mp h2]
      exact Or.inl hev

theorem terminalDecomp_of_map {s t : Store} (hInv : statusOk s) (u : SosEventUpdates)
    (eid : String) (hu : u.status = none ∨ u.status = some SosStatus.resolved)
    (hts : t.sosEvents =
      (s.sosEvents.map (fun e => if e.eventId == eid then applySosEventUpdates u e else e))) :
    terminalDecomp s t := by
  refine ⟨fun e => if e.eventId == eid then applySosEventUpdates u e else e, [],
    by simp [hts], ?_, by simp, ?_⟩
  · intro e he
    simp only []
    by_cases hbeq : (e.eventId == eid) = true
    · rw [if_pos hbeq]
      have hst : (applySosEventUpdates u e).status = u.status.getD e.status := rfl
      rcases hu with h0 | h0
      · rw [h0] at hst
        exact ⟨rfl, Or.inl hst, fun _ => hst⟩
      · rw [h0] at hst
        refine ⟨rfl, ?_, ?_⟩
        · rcases hInv e he with ha | hr
          · exact Or.inr ⟨ha, Or.inl hst⟩
          · exact Or.inl (hst.trans hr.symm)
        · intro hna
          rcases hInv e he with ha | hr
          · exact absurd ha hna
          · exact hst.trans hr.symm
    · rw [if_neg hbeq]
      exact ⟨rfl, Or.inl rfl, fun _ => rfl⟩
  · intro e he
    rw [hts] at he
    rcases List.mem_map.mp he with ⟨e0, he0, hfe⟩
    by_cases hbeq : (e0.eventId == eid) = true
    · rw [if_pos hbeq] at hfe
      have hst : (applySosEventUpdates u e0).status = u.status.getD e0.status := rfl
      rcases hu with h0 | h0
      · rw [h0] at hst
        rw [← hfe]
        rw [show (applySosEventUpdates u e0).status = e0.status from hst]
        exact hInv e0 he0
      · rw [h0] at hst
        rw [← hfe]
        exact Or.inr hst
    · rw [if_neg hbeq] at hfe
      rw [← hfe]
      exact hInv e0 he0

/-- C5: across every API operation, a stored SosEvent's status only ever
transitions from active to one of the terminal statuses, newly created
events start active, and once a status is non-active no operation changes
it again; the active-or-resolved invariant is preserved. -/
theorem sosEvent_status_terminal (op : Op) (s : Store) (hInv : statusOk s) :
    terminalDecomp s (step op s) := by
  cases op with
  | trigger now eid did lat lng tt =>
    by_cases hb : isBlockedNow (getSosRateLimit did s) now = true
    · apply terminalDecomp_of_eq hInv
      show (sosTrigger now eid did lat lng tt s).2.sosEvents = s.sosEvents
      unfold sosTrigger
      rw [hb]
      simp
    · have hb2 : isBlockedNow (getSosRateLimit did s) now = false := by
        cases hq : isBlockedNow (getSosRateLimit did s) now
        · rfl
        · exact absurd hq hb
      by_cases hd : s.dbAvailable = true
      · apply terminalDecomp_of_append hInv ⟨eid, did, .active, tt, lat, lng, 0, some now, none⟩ rfl
        show (sosTrigger now eid did lat lng tt s).2.sosEvents =
          s.sosEvents ++ [⟨eid, did, .active, tt, lat, lng, 0, some now, none⟩]
        unfold sosTrigger
        rw [hb2]
        simp only [Bool.false_eq_true, if_false]
        rcases hc : createSosEvent ⟨eid, did, .active, tt, lat, lng, 0, some now, none⟩ s with ⟨opt1, s1⟩
        have hs1 : s1.sosEvents =
            s.sosEvents ++ [⟨eid, did, .active, tt, lat, lng, 0, some now, none⟩] := by
          have h2 : (createSosEvent ⟨eid, did, .active, tt, lat, lng, 0, some now, none⟩ s).2.sosEvents =
              s.sosEvents ++ [⟨eid, did, .active, tt, lat, lng, 0, some now, none⟩] := by
            unfold createSosEvent
            rw [if_pos hd]
          rw [hc] at h2
          exact h2
        cases opt1
        · exact hs1
        · rw [updateDevice_sosEvents, addLocationHistory_sosEvents]
          exact hs1
      · apply terminalDecomp_of_eq hInv
        show (sosTrigger now eid did lat lng tt s).2.sosEvents = s.sosEvents
        unfold sosTrigger
        rw [hb2]
        simp only [Bool.false_eq_true, if_false]
        have hc : createSosEvent ⟨eid, did, .active, tt, lat, lng, 0, some now, none⟩ s = (none, s) := by
          unfold createSosEvent
          rw [if_neg hd]
        rw [hc]
  | resolve now eid =>
    have hsnd : (sosResolve now eid s).2 = (updateSosEvent eid ⟨some .resolved, some now, none⟩ s).2 := by
      unfold sosResolve
      rcases hu : updateSosEvent eid ⟨some .resolved, some now, none⟩ s with ⟨opt, s1⟩
      cases opt <;> rfl
    by_cases hd : s.dbAvailable = true
    · apply terminalDecomp_of_map hInv ⟨some .resolved, some now, none⟩ eid (Or.inr rfl)
      show (sosResolve now eid s).2.sosEvents = _
      rw [hsnd]
      unfold updateSosEvent
      rw [if_pos hd]
    · apply terminalDecomp_of_eq hInv
      show (sosResolve now eid s).2.sosEvents = s.sosEvents
      rw [hsnd]
      unfold updateSosEvent
      rw [if_neg hd]
  | updateLoc now eid did lat lng acc =>
    apply terminalDecomp_of_eq hInv
    show (updateLocation now eid did lat lng acc s).2.sosEvents = s.sosEvents
    unfold updateLocation
    split
    · rfl
    · split
      · rfl
      · split
        case h_1 s1 hadd =>
          have h2 := addLocationHistory_sosEvents ⟨eid, did, lat, lng, acc⟩ s
          rw [hadd] at h2
          exact h2
        case h_2 val s1 hadd =>
          have h2 := addLocationHistory_sosEvents ⟨eid, did, lat, lng, acc⟩ s
          rw [hadd] at h2
          rw [updateDevice_sosEvents]
          exact h2
  | notifyAll env ids ev dn url =>
    have hframe := notifyGo_frame env ids ev dn url (getEmergencyContacts ev.deviceId s) 0 s
    have hsnd : (notifyAllContacts env ids ev dn url s).2 =
        (updateSosEvent ev.eventId ⟨none, none,
          some ((notifyGo env ids ev dn url (getEmergencyContacts ev.deviceId s) 0 s).1.countP (fun r => r.success))⟩
          (notifyGo env ids ev dn url (getEmergencyContacts ev.deviceId s) 0 s).2).2 := by
      unfold notifyAllContacts
      rfl
    by_cases hd : s.dbAvailable = true
    · have havail : (notifyGo env ids ev dn url (getEmergencyContacts ev.deviceId s) 0 s).2.dbAvailable = true := by
        rw [hframe.1, hd]
      apply terminalDecomp_of_map hInv ⟨none, none,
        some ((notifyGo env ids ev dn url (getEmergencyContacts ev.deviceId s) 0 s).1.countP (fun r => r.success))⟩
        ev.eventId (Or.inl rfl)
      show (notifyAllContacts env ids ev dn url s).2.sosEvents = _
      rw [hsnd]
      unfold updateSosEvent
      rw [if_pos havail]
      simp only [hframe.2.2.2.1]
    · have hna : ¬ ((notifyGo env ids ev dn url (getEmergencyContacts ev.deviceId s) 0 s).2.dbAvailable = true) := by
        rw [hframe.1]
        exact hd
      apply terminalDecomp_of_eq hInv
      show (notifyAllContacts env ids ev dn url s).2.sosEvents = s.sosEvents
      rw [hsnd]
      unfold updateSosEvent
      rw [if_neg hna]
      exact hframe.2.2.2.1
  | register did name phone email =>
    apply terminalDecomp_of_eq hInv
    show (deviceRegister did name phone email s).2.sosEvents = s.sosEvents
    unfold deviceRegister
    rcases hopt : getDeviceByDeviceId did s with _ | d
    · rcases hc : createDevice ⟨did, name, phone, email, true, none, none, none⟩ s with ⟨opt1, s1⟩
      have hs1 : s1.sosEvents = s.sosEvents := by
        have h2 := createDevice_sosEvents ⟨did, name, phone, email, true, none, none, none⟩ s
        rw [hc] at h2
        exact h2
      cases opt1 <;> exact hs1
    · rfl
  | deleteContact id =>
    apply terminalDecomp_of_eq hInv
    show (contactsDelete id s).2.sosEvents = s.sosEvents
    exact deleteEmergencyContact_sosEvents id s

/-- C5 witness: resolving the sample active event preserves the status
invariant on the concrete store. -/
theorem sosEvent_status_terminal_witness :
    terminalDecomp exStore (step (Op.resolve 5 "e1") exStore) :=
  sosEvent_status_terminal (Op.resolve 5 "e1") exStore (by
    intro e he
    unfold exStore at he
    simp only [List.mem_cons, List.not_mem_nil, or_false] at he
    rcases he with h1 | h2
    · rw [h1]
      exact Or.inl rfl
    · rw [h2]
      exact Or.inr rfl)
